import Mathlib

/-!
Verification of the slideshow animation engine in `src/main.py`
(`SlideShowWindow`): Ken-Burns scale/offset generation, the easing time
base, pause/resume bookkeeping, the scaled-pixmap cache, the transition
effect selector and the advance-on-timeout error handling.

Python floats are modelled as exact rationals (`ℚ`), trigonometric values
as reals (`ℝ`).  Randomness (`random.random()`, `random.choice`,
`random.uniform`) is modelled by passing each draw as an explicit
parameter, constrained by hypotheses to the range the generator produces
(`random.random()` returns a value in `[0, 1)`).  Timestamps are integer
milliseconds (`ℤ`), matching `QElapsedTimer.elapsed()`.
-/

namespace Slideshow

/-- Python `int(q)`: truncation toward zero (Lean's `Int` division `/`
truncates toward zero, so `q.num / q.den` is exactly Python `int()`). -/
def truncQ (q : ℚ) : ℤ := q.num / q.den

/-- A `QPixmap`, reduced to its dimensions.  A null pixmap (as produced by
`QtGui.QPixmap()`) has width and height `0`. -/
structure Pixmap where
  w : ℕ
  h : ℕ
deriving DecidableEq, Repr

/-- `QPixmap.isNull()`. -/
def Pixmap.isNull (p : Pixmap) : Bool := p.w == 0 || p.h == 0

/-! ## `_calculate_ken_burns_scales` (src/main.py lines 1261-1278)

`u` is the `random.random()` draw used for the ±10% random offset,
`v` the draw used for the end scale. -/

/-- Embedding of `SlideShowWindow._calculate_ken_burns_scales`. -/
def calculate_ken_burns_scales (ken_intensity : ℚ) (u v : ℚ) : ℚ × ℚ :=
  let base_zoom := ken_intensity * (1 / 10)
  let random_offset := (u - 1 / 2) * (2 / 10)
  let total_zoom := base_zoom + random_offset
  let start_scale := 1 + total_zoom
  let start_scale := max (105 / 100) (min 2 start_scale)
  let end_scale := 1 + v * (5 / 100)
  (start_scale, end_scale)

/-! ## Easing time base (`_on_anim_frame`, src/main.py lines 1203-1228)

Both timelines use the same formula: the slide timeline computes
`t_linear = min(1.0, elapsed_ms / self.anim_duration)` and the transition
timeline `effect_t = min(1.0, transition_elapsed / self.fade_duration_ms)`;
each is then eased by `0.5 - 0.5 * cos(t * pi)`. -/

/-- Linear progress of a timeline: `min(1.0, elapsed / duration)`. -/
def t_linear (elapsed duration : ℚ) : ℚ := min 1 (elapsed / duration)

/-- The cosine easing `0.5 - 0.5 * math.cos(x * math.pi)` applied to the
linear progress in `_on_anim_frame`. -/
noncomputable def cosine_ease (x : ℚ) : ℝ :=
  0.5 - 0.5 * Real.cos ((x : ℝ) * Real.pi)

/-- Eased progress of a timeline after `elapsed` ms of a `duration` ms
animation, exactly as `_on_anim_frame` computes it for both the slide and
the transition timelines. -/
noncomputable def eased_progress (elapsed duration : ℚ) : ℝ :=
  cosine_ease (t_linear elapsed duration)

/-- Effective elapsed time of the slide timeline as `_on_anim_frame`
computes it: the raw `QElapsedTimer` reading minus the accumulated pause
duration (lines 1203-1209). -/
def adjusted_elapsed (now timer_start pause_duration : ℤ) : ℤ :=
  (now - timer_start) - pause_duration

/-! ## `_toggle_pause` (src/main.py lines 506-543)

The `hasattr`-tracked optional fields `_pause_start_time`, `_pause_duration`
and `_anim_elapsed_timer` are modelled as `Option` fields.  A
`QElapsedTimer` is modelled by the instant it was started; its `elapsed()`
reading at time `now` is `now - start`.  An active `QTimer` started with
`ms` is modelled as `some ms`. -/

/-- The pause/timer-related state of `SlideShowWindow`. -/
structure PauseState where
  is_paused : Bool
  animating : Bool
  /-- `some ms` iff `slide_timer` is active, last started with `ms`. -/
  slide_timer : Option ℤ
  animation_timer_on : Bool
  /-- instant `_anim_elapsed_timer` was started (`none` = attribute absent). -/
  anim_elapsed_start : Option ℤ
  /-- accumulated `_pause_duration` (`none` = attribute absent). -/
  pause_duration : Option ℤ
  /-- instant `_pause_start_time` was started (`none` = attribute absent). -/
  pause_start : Option ℤ
  anim_duration : ℤ
  interval_ms : ℤ
deriving DecidableEq, Repr

/-- Embedding of `SlideShowWindow._toggle_pause`, called at instant `now`. -/
def toggle_pause (s : PauseState) (now : ℤ) : PauseState :=
  if !s.is_paused then
    -- entering pause: stop both timers, record the pause start instant
    { s with is_paused := true, slide_timer := none,
             animation_timer_on := false, pause_start := some now }
  else
    -- resuming: fold the pause interval into `_pause_duration`
    let s₁ :=
      match s.pause_start with
      | some ps =>
          { s with is_paused := false,
                   pause_duration := some (s.pause_duration.getD 0 + (now - ps)),
                   pause_start := none }
      | none => { s with is_paused := false }
    if s₁.animating then
      let s₂ := { s₁ with animation_timer_on := true }
      match s₂.anim_elapsed_start with
      | some t0 =>
          let actual_elapsed := (now - t0) - s₂.pause_duration.getD 0
          { s₂ with slide_timer := some (max 100 (s₂.anim_duration - actual_elapsed)) }
      | none => { s₂ with slide_timer := some s₂.interval_ms }
    else
      { s₁ with slide_timer := some s₁.interval_ms }

/-- The effective elapsed time of the slide timeline at instant `now`, per
`_on_anim_frame`: the `_anim_elapsed_timer` reading minus `_pause_duration`. -/
def PauseState.effective_elapsed (s : PauseState) (now : ℤ) : ℤ :=
  adjusted_elapsed now (s.anim_elapsed_start.getD 0) (s.pause_duration.getD 0)

/-- A concrete mid-animation state: 5-second slide whose elapsed timer
started at instant 1000, not yet paused. -/
def pauseWitnessState : PauseState :=
  { is_paused := false, animating := true, slide_timer := some 5000,
    animation_timer_on := true, anim_elapsed_start := some 1000,
    pause_duration := none, pause_start := none,
    anim_duration := 5000, interval_ms := 5000 }

/-! ## `_get_scaled_pixmap` and `_manage_cache` (src/main.py lines
1391-1462 and 2052-2061)

`self._pixmap_cache` is a Python dict, which preserves insertion order:
`next(iter(dict))` yields the oldest-inserted key.  It is modelled as an
association list whose head is the oldest entry; assigning to a fresh key
appends at the end.  `pixmap.cacheKey()` is modelled as an identity `ℕ`
given per pixmap.  The `scaled.isNull()` guard after `pixmap.scaled(...)`
(a Qt allocation failure) is modelled by the `scale_ok` parameter. -/

abbrev CacheKey := ℕ × (ℕ × ℕ) × Bool × Bool × String

abbrev CacheVal := Pixmap × ℤ × ℤ

abbrev PixmapCache := List (CacheKey × CacheVal)

/-- `self._cache_max_size` (src/main.py line 398). -/
def cache_max_size : ℕ := 3

/-- Python dict lookup `cache[key]`. -/
def cache_lookup (c : PixmapCache) (k : CacheKey) : Option CacheVal :=
  (c.find? (fun e => e.1 == k)).map (·.2)

/-- Python `del cache[key]` (keys are unique, so erasing the first match
is exact). -/
def cache_del (c : PixmapCache) (k : CacheKey) : PixmapCache :=
  c.eraseP (fun e => e.1 == k)

/-- Python dict assignment `cache[key] = v`: update in place when the key
is present, append (newest position) when absent. -/
def dict_set (c : PixmapCache) (k : CacheKey) (v : CacheVal) : PixmapCache :=
  if (c.find? (fun e => e.1 == k)).isSome then
    c.map (fun e => if e.1 == k then (k, v) else e)
  else
    c ++ [(k, v)]

/-- The `while len > max: del oldest` loop of `_manage_cache`, with an
explicit fuel (each iteration removes one entry, so a fuel equal to the
initial length always suffices to run the loop to completion). -/
def manage_cache_loop : ℕ → PixmapCache → PixmapCache
  | 0, c => c
  | fuel + 1, c =>
      if cache_max_size < c.length then manage_cache_loop fuel c.tail else c

/-- Embedding of `SlideShowWindow._manage_cache`: evict oldest entries
while more than `cache_max_size` remain. -/
def manage_cache (c : PixmapCache) : PixmapCache :=
  manage_cache_loop c.length c

/-- The base scale factor of `_get_scaled_pixmap` (src/main.py lines
1422-1425): cover takes the larger viewport/image ratio, contain the
smaller. -/
def base_scale_factor (fit_mode : String) (vw vh : ℕ) (pixmap : Pixmap) : ℚ :=
  if fit_mode == "cover" then
    max ((vw : ℚ) / pixmap.w) ((vh : ℚ) / pixmap.h)
  else
    min ((vw : ℚ) / pixmap.w) ((vh : ℚ) / pixmap.h)

/-- The target dimensions `(new_w, new_h)` of `_get_scaled_pixmap`
(src/main.py lines 1428-1429): `int(dimension * final_scale_factor)`. -/
def target_size (fit_mode : String) (vw vh : ℕ) (pixmap : Pixmap) : ℤ × ℤ :=
  (truncQ ((pixmap.w : ℚ) * base_scale_factor fit_mode vw vh pixmap),
   truncQ ((pixmap.h : ℚ) * base_scale_factor fit_mode vw vh pixmap))

/-- The scale-and-store path of `_get_scaled_pixmap` (src/main.py lines
1415-1462), reached on a cache miss. -/
def scale_and_store (cache : PixmapCache) (cache_key : CacheKey)
    (pixmap : Pixmap) (vp_w vp_h : ℕ) (for_anim ken_burns : Bool)
    (fit_mode : String) (scale_ok : Bool) : (Pixmap × ℤ × ℤ) × PixmapCache :=
  let vw : ℕ := max 1 vp_w
  let vh : ℕ := max 1 vp_h
  let new_w : ℤ := (target_size fit_mode vw vh pixmap).1
  let new_h : ℤ := (target_size fit_mode vw vh pixmap).2
  if new_w < 1 || new_h < 1 then
    ((pixmap, 0, 0), cache)
  else if !scale_ok then
    -- `scaled.isNull()`: scaling failed, return the original unscaled
    ((pixmap, 0, 0), cache)
  else
    let scaled : Pixmap := ⟨new_w.toNat, new_h.toNat⟩
    let offs : ℤ × ℤ :=
      if !ken_burns || !for_anim then
        (Int.fdiv ((vw : ℤ) - scaled.w) 2, Int.fdiv ((vh : ℤ) - scaled.h) 2)
      else
        (0, 0)
    ((scaled, offs.1, offs.2),
      dict_set (manage_cache cache) cache_key (scaled, offs.1, offs.2))

/-- Embedding of `SlideShowWindow._get_scaled_pixmap`.  Returns the
result triple and the cache after the call. -/
def get_scaled_pixmap (cache : PixmapCache) (pix_id : ℕ) (pixmap : Pixmap)
    (vp_w vp_h : ℕ) (for_anim ken_burns : Bool) (fit_mode : String)
    (scale_ok : Bool) : (Pixmap × ℤ × ℤ) × PixmapCache :=
  if pixmap.isNull then
    ((⟨0, 0⟩, 0, 0), cache)
  else
    let cache_key : CacheKey := (pix_id, (vp_w, vp_h), for_anim, ken_burns, fit_mode)
    match cache_lookup cache cache_key with
    | some (cached_pixmap, xo, yo) =>
        if !cached_pixmap.isNull then
          ((cached_pixmap, xo, yo), cache)
        else
          scale_and_store (cache_del cache cache_key) cache_key pixmap
            vp_w vp_h for_anim ken_burns fit_mode scale_ok
    | none =>
        scale_and_store cache cache_key pixmap
          vp_w vp_h for_anim ken_burns fit_mode scale_ok

/-- One `_get_scaled_pixmap` call's inputs. -/
structure ScaleRequest where
  pix_id : ℕ
  pixmap : Pixmap
  vp_w : ℕ
  vp_h : ℕ
  for_anim : Bool
  ken_burns : Bool
  fit_mode : String
  scale_ok : Bool
deriving DecidableEq, Repr

/-- The cache after one `_get_scaled_pixmap` call. -/
def scale_step (c : PixmapCache) (r : ScaleRequest) : PixmapCache :=
  (get_scaled_pixmap c r.pix_id r.pixmap r.vp_w r.vp_h r.for_anim
    r.ken_burns r.fit_mode r.scale_ok).2

/-- The cache produced by a sequence of `_get_scaled_pixmap` calls started
from the empty cache. -/
def run_requests (rs : List ScaleRequest) : PixmapCache :=
  rs.foldl scale_step []

/-- A request that takes the successful scale-and-insert path: a 10×10
pixmap scaled to a 10×10 viewport in cover mode. -/
def simple_request (pix_id : ℕ) : ScaleRequest :=
  { pix_id := pix_id, pixmap := ⟨10, 10⟩, vp_w := 10, vp_h := 10,
    for_anim := false, ken_burns := false, fit_mode := "cover",
    scale_ok := true }

/-- A concrete cache holding four entries (the size the lazy eviction
lets the cache reach between calls). -/
def four_entry_cache : PixmapCache :=
  [((1, (10, 10), false, false, "cover"), (⟨10, 10⟩, 0, 0)),
   ((2, (10, 10), false, false, "cover"), (⟨10, 10⟩, 0, 0)),
   ((3, (10, 10), false, false, "cover"), (⟨10, 10⟩, 0, 0)),
   ((4, (10, 10), false, false, "cover"), (⟨10, 10⟩, 0, 0))]

/-! ## `_calculate_ken_burns_offsets` (src/main.py lines 1280-1389)

Each random draw of the source is an explicit parameter: `random.random()`
draws are rationals in `[0, 1)`, `random.choice([-1, 1])` draws are `±1`,
`random.choice([True, False])` a `Bool`, and the cosine/sine of the random
spiral start angle are rationals of magnitude at most 1.
`random.uniform(a, b)` is `a + (b - a) * u` for a unit draw `u`. -/

/-- `random.uniform(a, b)` at unit draw `u`. -/
def uniform (a b u : ℚ) : ℚ := a + (b - a) * u

/-- The random draws consumed by one `_calculate_ken_burns_offsets` call. -/
structure OffsetDraws where
  /-- unit draw for `start_distance_factor = 0.5 + r*0.2` (spiral). -/
  spiral_dist : ℚ
  /-- `math.cos(self.spiral_start_angle)`. -/
  spiral_cos : ℚ
  /-- `math.sin(self.spiral_start_angle)`. -/
  spiral_sin : ℚ
  /-- `random.choice([True, False])` picking which arc axis is edge-biased. -/
  arc_x_edge : Bool
  /-- unit draw for the arc x-axis factor. -/
  arc_u1 : ℚ
  /-- unit draw for the arc y-axis factor. -/
  arc_u2 : ℚ
  /-- `random.choice([-1, 1])` for the x start offset sign. -/
  sign_x : ℚ
  /-- `random.choice([-1, 1])` for the y start offset sign. -/
  sign_y : ℚ
  /-- unit draw for `start_distance_factor = 0.7 + r*0.2` (linear/wave/zigzag). -/
  lin_dist : ℚ
  /-- unit draw for the x end offset (`random.uniform`). -/
  end_u1 : ℚ
  /-- unit draw for the y end offset (`random.uniform`). -/
  end_u2 : ℚ
  /-- unit draw for `end_distance_factor = r*0.4`. -/
  end_dist : ℚ
deriving DecidableEq, Repr

/-- The base scale of `_calculate_ken_burns_offsets` (src/main.py lines
1288-1291). -/
def kb_base_scale (fit_mode : String) (vw vh : ℚ) (pixmap : Pixmap) : ℚ :=
  if fit_mode == "cover" then
    max (vw / pixmap.w) (vh / pixmap.h)
  else
    min (vw / pixmap.w) (vh / pixmap.h)

/-- Maximum allowable x offset at total scale `total` (the slack keeping
the scaled image over the viewport), src/main.py lines 1311-1324. -/
def kb_max_off_x (fit_mode : String) (vw vh : ℚ) (pixmap : Pixmap)
    (total : ℚ) : ℚ :=
  max 0 ((pixmap.w * kb_base_scale fit_mode vw vh pixmap * total - vw) / 2)

/-- Maximum allowable y offset at total scale `total`. -/
def kb_max_off_y (fit_mode : String) (vw vh : ℚ) (pixmap : Pixmap)
    (total : ℚ) : ℚ :=
  max 0 ((pixmap.h * kb_base_scale fit_mode vw vh pixmap * total - vh) / 2)

/-- Start offsets before integer truncation (src/main.py lines 1328-1349),
given the per-axis maxima `smx`, `smy` and `intensity_factor = intensity/10`. -/
def kb_start_offsets_raw (movement_pattern : String) (smx smy : ℚ)
    (intensity_factor : ℚ) (d : OffsetDraws) : ℚ × ℚ :=
  if movement_pattern == "spiral_in" then
    let start_distance_factor := 1/2 + d.spiral_dist * (2/10)
    (d.spiral_cos * smx * start_distance_factor * intensity_factor,
     d.spiral_sin * smy * start_distance_factor * intensity_factor)
  else if movement_pattern == "arc" then
    let start_x_factor :=
      if d.arc_x_edge then 7/10 + d.arc_u1 * (2/10) else 3/10 + d.arc_u1 * (3/10)
    let start_y_factor :=
      if d.arc_x_edge then 3/10 + d.arc_u2 * (3/10) else 7/10 + d.arc_u2 * (2/10)
    (d.sign_x * smx * start_x_factor * intensity_factor,
     d.sign_y * smy * start_y_factor * intensity_factor)
  else
    let start_distance_factor := 7/10 + d.lin_dist * (2/10)
    (d.sign_x * smx * start_distance_factor * intensity_factor,
     d.sign_y * smy * start_distance_factor * intensity_factor)

/-- End offsets before integer truncation (src/main.py lines 1351-1371),
given the per-axis end maxima `emx`, `emy`. -/
def kb_end_offsets_raw (fit_mode movement_pattern : String) (emx emy : ℚ)
    (d : OffsetDraws) : ℚ × ℚ :=
  if fit_mode == "contain" then
    (0, 0)
  else if movement_pattern == "wave" || movement_pattern == "zigzag" then
    let safe_factor := 3/10
    (uniform (-(emx * safe_factor)) (emx * safe_factor) d.end_u1,
     uniform (-(emy * safe_factor)) (emy * safe_factor) d.end_u2)
  else if movement_pattern == "spiral_in" then
    (0, 0)
  else
    let end_distance_factor := d.end_dist * (4/10)
    (uniform (-emx) emx d.end_u1 * end_distance_factor,
     uniform (-emy) emy d.end_u2 * end_distance_factor)

/-- Embedding of `SlideShowWindow._calculate_ken_burns_offsets` before the
final `int(...)` conversions: `(start_off_x, start_off_y, end_off_x,
end_off_y)`. -/
def calculate_ken_burns_offsets_raw (ken_burns : Bool) (fit_mode : String)
    (vw vh : ℚ) (pixmap : Pixmap) (start_scale end_scale ken_intensity : ℚ)
    (movement_pattern : String) (d : OffsetDraws) : ℚ × ℚ × ℚ × ℚ :=
  if !ken_burns then (0, 0, 0, 0)
  else
    let intensity_factor := ken_intensity / 10
    let smx := kb_max_off_x fit_mode vw vh pixmap start_scale
    let smy := kb_max_off_y fit_mode vw vh pixmap start_scale
    let emx := if fit_mode == "cover" then
        kb_max_off_x fit_mode vw vh pixmap end_scale else 0
    let emy := if fit_mode == "cover" then
        kb_max_off_y fit_mode vw vh pixmap end_scale else 0
    let s := kb_start_offsets_raw movement_pattern smx smy intensity_factor d
    let e := kb_end_offsets_raw fit_mode movement_pattern emx emy d
    (s.1, s.2, e.1, e.2)

/-- Embedding of `SlideShowWindow._calculate_ken_burns_offsets` including
the final truncation to integers (src/main.py lines 1374-1377). -/
def calculate_ken_burns_offsets (ken_burns : Bool) (fit_mode : String)
    (vw vh : ℚ) (pixmap : Pixmap) (start_scale end_scale ken_intensity : ℚ)
    (movement_pattern : String) (d : OffsetDraws) : ℤ × ℤ × ℤ × ℤ :=
  let r := calculate_ken_burns_offsets_raw ken_burns fit_mode vw vh pixmap
    start_scale end_scale ken_intensity movement_pattern d
  (truncQ r.1, truncQ r.2.1, truncQ r.2.2.1, truncQ r.2.2.2)

/-- An `OffsetDraws` value with every unit draw at 0 and both signs +1
(each component is a value the generators can produce). -/
def zero_draws : OffsetDraws :=
  { spiral_dist := 0, spiral_cos := 1, spiral_sin := 0, arc_x_edge := true,
    arc_u1 := 0, arc_u2 := 0, sign_x := 1, sign_y := 1, lin_dist := 0,
    end_u1 := 0, end_u2 := 0, end_dist := 0 }

/-! ## `_select_next_effect` (src/main.py lines 201-212)

`random.choice(seq)` is modelled by an index draw `r`; a Python
`IndexError` (list indexed out of range) is modelled as `none`. -/

/-- Embedding of `SlideShowWindow._select_next_effect`.  Returns the
selected effect together with the updated `current_effect_index`. -/
def select_next_effect (enabled_effects : List String) (effect_order : String)
    (r : ℕ) (current_effect_index : ℕ) : Option (String × ℕ) :=
  if enabled_effects.isEmpty then
    some ("none", current_effect_index)
  else if effect_order == "random" then
    (enabled_effects[r]?).map (fun e => (e, current_effect_index))
  else
    (enabled_effects[current_effect_index]?).map
      (fun e => (e, (current_effect_index + 1) % enabled_effects.length))

/-! ## `_on_slide_timeout` (src/main.py lines 984-1187)

The decode loop (`create_pixmap_from_file` with up to 3 retries) is
modelled by `decode_ok : ℕ → Bool` giving the outcome of each attempt;
an attempt that raises and one that returns a null pixmap are both
failures.  Path normalisation (`os.path.normpath`) is treated as the
identity, playlist entries being already-normalised absolute paths. -/

/-- The decode retry loop (src/main.py lines 1025-1048): up to `fuel`
attempts starting at attempt number `k`, stopping at the first success. -/
def decode_retry (decode_ok : ℕ → Bool) : ℕ → ℕ → Bool
  | 0, _ => false
  | fuel + 1, k => if decode_ok k then true else decode_retry decode_ok fuel (k + 1)

/-- Whether the decode loop with `max_retries = 3` succeeds. -/
def decode_succeeds (decode_ok : ℕ → Bool) : Bool :=
  decode_retry decode_ok 3 0

/-- The advance-relevant state of `SlideShowWindow` entering
`_on_slide_timeout`. -/
structure AdvanceState where
  image_files : List String
  index : ℕ
  /-- `self._load_error_count`, absent keys read as 0. -/
  load_error_count : String → ℕ
  animating : Bool
  is_paused : Bool

/-- A concrete advance state: three images, current index 0, every path
already at 2 cumulative decode failures. -/
def advWitnessState : AdvanceState :=
  ⟨["a", "b", "c"], 0, fun _ => 2, false, false⟩

/-- The observable outcome of one `_on_slide_timeout` call. -/
structure AdvanceResult where
  image_files : List String
  index : ℕ
  load_error_count : String → ℕ
  /-- `some ms` iff `slide_timer.start(ms)` was called before returning. -/
  slide_timer : Option ℤ
  /-- the decode succeeded and the call proceeded into the transition. -/
  proceeded : Bool

/-- Embedding of `SlideShowWindow._on_slide_timeout` up to the point where
a successfully decoded image enters the transition (the transition setup
itself is covered by the other definitions). -/
def on_slide_timeout (s : AdvanceState) (force_next_item : Bool)
    (interval_ms : ℤ) (decode_ok : ℕ → Bool) : AdvanceResult :=
  if s.animating && !force_next_item then
    ⟨s.image_files, s.index, s.load_error_count, none, false⟩
  else if s.is_paused then
    ⟨s.image_files, s.index, s.load_error_count, some interval_ms, false⟩
  else if s.image_files.isEmpty then
    -- "no images" overlay; no timer is restarted
    ⟨s.image_files, s.index, s.load_error_count, none, false⟩
  else
    -- index self-correction (src/main.py lines 1005-1009)
    let index₀ := if s.image_files.length ≤ s.index then 0 else s.index
    let next_index := (index₀ + 1) % s.image_files.length
    let path := s.image_files.getD next_index ""
    if decode_succeeds decode_ok then
      -- success: clear this path's error count, proceed into the transition
      ⟨s.image_files, next_index,
        fun p => if p = path then 0 else s.load_error_count p, none, true⟩
    else
      let counts := fun p =>
        if p = path then s.load_error_count path + 1 else s.load_error_count p
      if 3 ≤ s.load_error_count path + 1 then
        -- permanent skip (src/main.py lines 1062-1080)
        let files := s.image_files.erase path
        if files.isEmpty then
          -- "no displayable images" overlay; return without a timer
          ⟨files, index₀, counts, none, false⟩
        else
          ⟨files, index₀ % files.length, counts, some 100, false⟩
      else
        ⟨s.image_files, index₀, counts, some 100, false⟩

/-! ## Spiral position functions (`_apply_ken_burns_normal`, src/main.py
lines 1511-1524, and `_apply_ken_burns_during_transition`, lines
1675-1690)

`_calculate_ken_burns_t` (line 1942) is the identity, so `t_ken = t`.
`rotations` (`self.spiral_rotations`) and `start_angle`
(`self.spiral_start_angle`) are the per-slide random parameters; the
eased progress `t` is kept rational so the piecewise radius stays
decidable, while angles and trigonometry live in `ℝ`. -/

/-- The spiral branch of `_apply_ken_burns_normal`: position
`(current_x, current_y)` at eased progress `t`. -/
noncomputable def apply_ken_burns_normal_spiral (ken_intensity : ℚ)
    (rotations start_angle : ℝ) (sx sy ex ey : ℤ) (t : ℚ) : ℝ × ℝ :=
  let angle : ℝ := start_angle + (t : ℝ) * rotations * (2 * Real.pi)
  let radius : ℚ :=
    if t < 2/10 then 1 + t / (2/10) * (3/10)
    else 13/10 * (1 - (t - 2/10) / (8/10))
  let spiral_amplitude : ℚ := 120 * ken_intensity / 10 * radius
  let base_x : ℚ := sx + (ex - sx) * t
  let base_y : ℚ := sy + (ey - sy) * t
  ((base_x + spiral_amplitude * Real.cos angle : ℝ),
   (base_y + spiral_amplitude * Real.sin angle : ℝ))

/-- The spiral branch of `_apply_ken_burns_during_transition`: position
`(ken_x, ken_y)` of the incoming layer at eased progress `t`.  Identical
to the static path except for the amplitude scale `100 * intensity / 10`
(src/main.py line 1686). -/
noncomputable def apply_ken_burns_during_transition_spiral (ken_intensity : ℚ)
    (rotations start_angle : ℝ) (sx sy ex ey : ℤ) (t : ℚ) : ℝ × ℝ :=
  let angle : ℝ := start_angle + (t : ℝ) * rotations * (2 * Real.pi)
  let radius : ℚ :=
    if t < 2/10 then 1 + t / (2/10) * (3/10)
    else 13/10 * (1 - (t - 2/10) / (8/10))
  let spiral_amplitude : ℚ := 100 * ken_intensity / 10 * radius
  let base_x : ℚ := sx + (ex - sx) * t
  let base_y : ℚ := sy + (ey - sy) * t
  ((base_x + spiral_amplitude * Real.cos angle : ℝ),
   (base_y + spiral_amplitude * Real.sin angle : ℝ))

/-- The spiral position formula exactly as the claim words it: linear
interpolation of start and end offsets plus a rotating offset
`amplitude(t) * [cos(angle), sin(angle)]` with
`angle = start_angle + t*rotations*2*pi`, where the radius ramps 1.0 to
1.3 over `t ∈ [0, 0.2]` (slope 3/2) then decays 1.3 to 0 over
`t ∈ [0.2, 1.0]` (i.e. `13/8 * (1 - t)`), and `amplitude(t)` is the
given amplitude scale times the radius. -/
noncomputable def claimed_spiral_position (amplitude_scale : ℚ)
    (rotations start_angle : ℝ) (sx sy ex ey : ℤ) (t : ℚ) : ℝ × ℝ :=
  let angle : ℝ := start_angle + (t : ℝ) * rotations * (2 * Real.pi)
  let radius : ℚ := if t < 2/10 then 1 + 3/2 * t else 13/8 * (1 - t)
  let amplitude : ℚ := amplitude_scale * radius
  let lerp_x : ℚ := sx + (ex - sx) * t
  let lerp_y : ℚ := sy + (ey - sy) * t
  ((lerp_x + amplitude * Real.cos angle : ℝ),
   (lerp_y + amplitude * Real.sin angle : ℝ))

end Slideshow

namespace Slideshow

/-- C3: for every intensity in [1,10] and all random draws, the start scale
lies in [1.05, 2.0] and the end scale in [1.0, 1.05]. -/
theorem ken_burns_scales_in_range (i u v : ℚ)
    (hi1 : 1 ≤ i) (hi2 : i ≤ 10) (hu0 : 0 ≤ u) (hu1 : u < 1)
    (hv0 : 0 ≤ v) (hv1 : v < 1) :
    105 / 100 ≤ (calculate_ken_burns_scales i u v).1 ∧
    (calculate_ken_burns_scales i u v).1 ≤ 2 ∧
    1 ≤ (calculate_ken_burns_scales i u v).2 ∧
    (calculate_ken_burns_scales i u v).2 ≤ 105 / 100 := by
  unfold calculate_ken_burns_scales
  refine ⟨le_max_left _ _, ?_, ?_, ?_⟩
  · exact max_le (by norm_num) (min_le_left _ _)
  · simpa using by nlinarith
  · simpa using by nlinarith

/-- Witness for `ken_burns_scales_in_range` at intensity 5, draws 1/2, 1/3. -/
theorem ken_burns_scales_in_range_witness :
    105 / 100 ≤ (calculate_ken_burns_scales 5 (1/2) (1/3)).1 ∧
    (calculate_ken_burns_scales 5 (1/2) (1/3)).1 ≤ 2 ∧
    1 ≤ (calculate_ken_burns_scales 5 (1/2) (1/3)).2 ∧
    (calculate_ken_burns_scales 5 (1/2) (1/3)).2 ≤ 105 / 100 :=
  ken_burns_scales_in_range 5 (1/2) (1/3) (by norm_num) (by norm_num)
    (by norm_num) (by norm_num) (by norm_num) (by norm_num)

/-- The eased progress never exceeds 1 (for any linear progress value). -/
theorem cosine_ease_le_one (x : ℚ) : cosine_ease x ≤ 1 := by
  unfold cosine_ease
  have h := Real.neg_one_le_cos ((x : ℝ) * Real.pi)
  linarith

/-- The cosine easing is monotone on linear progress values in `[0, 1]`. -/
theorem cosine_ease_mono {a b : ℚ} (ha : 0 ≤ a) (hb : b ≤ 1) (hab : a ≤ b) :
    cosine_ease a ≤ cosine_ease b := by
  unfold cosine_ease
  have hcos : Real.cos ((b : ℝ) * Real.pi) ≤ Real.cos ((a : ℝ) * Real.pi) := by
    apply Real.cos_le_cos_of_nonneg_of_le_pi
    · positivity
    · calc (b : ℝ) * Real.pi ≤ 1 * Real.pi := by
            apply mul_le_mul_of_nonneg_right _ Real.pi_pos.le
            exact_mod_cast hb
      _ = Real.pi := one_mul _
    · apply mul_le_mul_of_nonneg_right _ Real.pi_pos.le
      exact_mod_cast hab
  linarith

/-- C6: for both timelines (the slide timeline with `anim_duration` and the
transition timeline with `fade_duration_ms`, which share this formula), the
eased progress is monotone non-decreasing in elapsed time, equals exactly 1
at or after the configured duration, and never exceeds 1. -/
theorem eased_progress_mono_clamped (duration e₁ e₂ : ℚ)
    (hd : 0 < duration) (h0 : 0 ≤ e₁) (h12 : e₁ ≤ e₂) :
    eased_progress e₁ duration ≤ eased_progress e₂ duration ∧
    (∀ e : ℚ, duration ≤ e → eased_progress e duration = 1) ∧
    (∀ e : ℚ, eased_progress e duration ≤ 1) := by
  refine ⟨?_, ?_, fun e => cosine_ease_le_one _⟩
  · apply cosine_ease_mono
    · exact le_min (by norm_num) (div_nonneg h0 hd.le)
    · exact min_le_left _ _
    · exact min_le_min le_rfl (by gcongr)
  · intro e he
    have hlin : t_linear e duration = 1 := by
      unfold t_linear
      rw [min_eq_left]
      rw [le_div_iff hd]
      linarith
    rw [eased_progress, hlin]
    unfold cosine_ease
    push_cast
    rw [one_mul, Real.cos_pi]
    norm_num

/-- Witness for `eased_progress_mono_clamped` at duration 5000, elapsed 100
and 200. -/
theorem eased_progress_mono_clamped_witness :
    eased_progress 100 5000 ≤ eased_progress 200 5000 ∧
    (∀ e : ℚ, 5000 ≤ e → eased_progress e 5000 = 1) ∧
    (∀ e : ℚ, eased_progress e 5000 ≤ 1) :=
  eased_progress_mono_clamped 5000 100 200 (by norm_num) (by norm_num)
    (by norm_num)

/-- C1: toggling pause on a running animation records the pause start
instant and stops both timers; toggling again (resume) restarts the slide
timer with `max(100, anim_duration - adjusted_elapsed)`, and the effective
elapsed time immediately after resume equals the effective elapsed time
immediately before pause: the paused interval contributes zero progress. -/
theorem pause_resume_preserves_elapsed (s : PauseState) (t0 tp tr : ℤ)
    (hrun : s.is_paused = false) (hanim : s.animating = true)
    (ht0 : s.anim_elapsed_start = some t0) :
    (toggle_pause s tp).is_paused = true ∧
    (toggle_pause s tp).pause_start = some tp ∧
    (toggle_pause s tp).slide_timer = none ∧
    (toggle_pause s tp).animation_timer_on = false ∧
    (toggle_pause (toggle_pause s tp) tr).slide_timer =
      some (max 100 (s.anim_duration -
        (toggle_pause (toggle_pause s tp) tr).effective_elapsed tr)) ∧
    (toggle_pause (toggle_pause s tp) tr).effective_elapsed tr =
      s.effective_elapsed tp := by
  have h1 : toggle_pause s tp =
      { s with is_paused := true, slide_timer := none,
               animation_timer_on := false, pause_start := some tp } := by
    unfold toggle_pause
    rw [hrun]
    simp
  have h2 : toggle_pause (toggle_pause s tp) tr =
      { s with is_paused := false,
               slide_timer := some (max 100 (s.anim_duration - ((tr - t0) - (s.pause_duration.getD 0 + (tr - tp))))),
               animation_timer_on := true,
               pause_duration := some (s.pause_duration.getD 0 + (tr - tp)),
               pause_start := none } := by
    rw [h1]
    unfold toggle_pause
    simp [hanim, ht0]
  refine ⟨by rw [h1], by rw [h1], by rw [h1], by rw [h1], ?_, ?_⟩
  · rw [h2]
    simp [PauseState.effective_elapsed, adjusted_elapsed, ht0]
  · rw [h2]
    simp [PauseState.effective_elapsed, adjusted_elapsed, ht0]
    ring

/-- The eviction loop leaves at most `cache_max_size` entries whenever its
fuel covers the excess. -/
theorem manage_cache_loop_length_le (fuel : ℕ) (c : PixmapCache)
    (h : c.length ≤ fuel + cache_max_size) :
    (manage_cache_loop fuel c).length ≤ cache_max_size := by
  induction fuel generalizing c with
  | zero => simpa [manage_cache_loop] using h
  | succ n ih =>
      rw [manage_cache_loop]
      split
      · exact ih c.tail (by simp [List.length_tail]; omega)
      · omega

/-- `_manage_cache` always leaves at most `cache_max_size` entries. -/
theorem manage_cache_length_le (c : PixmapCache) :
    (manage_cache c).length ≤ cache_max_size :=
  manage_cache_loop_length_le c.length c (by omega)

/-- Dict assignment grows the cache by at most one entry. -/
theorem dict_set_length_le (c : PixmapCache) (k : CacheKey) (v : CacheVal) :
    (dict_set c k v).length ≤ c.length + 1 := by
  unfold dict_set
  split
  · simp
  · simp

/-- Deleting a key never grows the cache. -/
theorem cache_del_length_le (c : PixmapCache) (k : CacheKey) :
    (cache_del c k).length ≤ c.length :=
  (List.eraseP_sublist c).length_le

/-- The scale-and-store path keeps the cache within `cache_max_size + 1`
entries. -/
theorem scale_and_store_length_le (cache : PixmapCache) (k : CacheKey)
    (pixmap : Pixmap) (vp_w vp_h : ℕ) (fa kb : Bool) (fm : String)
    (ok : Bool) (h : cache.length ≤ cache_max_size + 1) :
    (scale_and_store cache k pixmap vp_w vp_h fa kb fm ok).2.length ≤
      cache_max_size + 1 := by
  unfold scale_and_store
  dsimp only
  repeat' split
  all_goals
    first
      | exact h
      | exact le_trans (dict_set_length_le _ _ _)
          (Nat.add_le_add_right (manage_cache_length_le cache) 1)

/-- One `_get_scaled_pixmap` call keeps the cache within
`cache_max_size + 1` entries. -/
theorem scale_step_length_le (c : PixmapCache) (r : ScaleRequest)
    (h : c.length ≤ cache_max_size + 1) :
    (scale_step c r).length ≤ cache_max_size + 1 := by
  unfold scale_step get_scaled_pixmap
  dsimp only
  repeat' split
  all_goals
    first
      | exact h
      | exact scale_and_store_length_le _ _ _ _ _ _ _ _ _ h
      | exact scale_and_store_length_le _ _ _ _ _ _ _ _ _
          (le_trans (cache_del_length_le _ _) h)

/-- On a non-null input the scale-and-store path never returns a null
pixmap: every branch returns the original pixmap or a scaled pixmap of
dimensions at least 1×1. -/
theorem scale_and_store_not_null (cache : PixmapCache) (k : CacheKey)
    (pixmap : Pixmap) (vp_w vp_h : ℕ) (fa kb : Bool) (fm : String)
    (ok : Bool) (h : pixmap.isNull = false) :
    (scale_and_store cache k pixmap vp_w vp_h fa kb fm ok).1.1.isNull = false := by
  unfold scale_and_store
  dsimp only
  split
  · exact h
  · split
    · exact h
    · rename_i hdims _
      simp only [Bool.or_eq_true, decide_eq_true_eq, not_or] at hdims
      simp only [Pixmap.isNull, Bool.or_eq_false_iff, beq_eq_false_iff_ne]
      omega

/-- C10: `_get_scaled_pixmap` is total at its interface: a null input
yields an empty pixmap with offsets (0,0) and an untouched cache; a
non-null input always yields a non-null pixmap; on a cache miss, target
dimensions below one pixel — or a scaling failure — yield the original
unscaled pixmap with offsets (0,0) instead of an invalid bitmap. -/
theorem get_scaled_pixmap_safe (cache : PixmapCache) (pix_id : ℕ)
    (pixmap : Pixmap) (vp_w vp_h : ℕ) (fa kb : Bool) (fm : String)
    (ok : Bool) :
    (pixmap.isNull = true →
      get_scaled_pixmap cache pix_id pixmap vp_w vp_h fa kb fm ok =
        ((⟨0, 0⟩, 0, 0), cache)) ∧
    (pixmap.isNull = false →
      (get_scaled_pixmap cache pix_id pixmap vp_w vp_h fa kb fm ok).1.1.isNull
        = false) ∧
    (pixmap.isNull = false →
      cache_lookup cache (pix_id, (vp_w, vp_h), fa, kb, fm) = none →
      ((target_size fm (max 1 vp_w) (max 1 vp_h) pixmap).1 < 1 ∨
        (target_size fm (max 1 vp_w) (max 1 vp_h) pixmap).2 < 1) →
      get_scaled_pixmap cache pix_id pixmap vp_w vp_h fa kb fm ok =
        ((pixmap, 0, 0), cache)) ∧
    (pixmap.isNull = false →
      cache_lookup cache (pix_id, (vp_w, vp_h), fa, kb, fm) = none →
      ok = false →
      get_scaled_pixmap cache pix_id pixmap vp_w vp_h fa kb fm ok =
        ((pixmap, 0, 0), cache)) := by
  refine ⟨?_, ?_, ?_, ?_⟩
  · intro hnull
    unfold get_scaled_pixmap
    rw [if_pos hnull]
  · intro hnn
    unfold get_scaled_pixmap
    rw [if_neg (by simp [hnn])]
    dsimp only
    split
    · split
      · rename_i hcp
        simpa using hcp
      · exact scale_and_store_not_null _ _ _ _ _ _ _ _ _ hnn
    · exact scale_and_store_not_null _ _ _ _ _ _ _ _ _ hnn
  · intro hnn hmiss hdims
    unfold get_scaled_pixmap
    rw [if_neg (by simp [hnn])]
    dsimp only
    rw [hmiss]
    unfold scale_and_store
    dsimp only
    rw [if_pos (by rcases hdims with h | h <;> simp [h])]
  · intro hnn hmiss hok
    unfold get_scaled_pixmap
    rw [if_neg (by simp [hnn])]
    dsimp only
    rw [hmiss]
    unfold scale_and_store
    dsimp only
    split
    · rfl
    · rw [if_pos (by simp [hok])]

/-- Witness for `get_scaled_pixmap_safe`: a null pixmap, a 10×10 pixmap
in a 10×10 viewport, a 10000×1 pixmap whose contain-fit target height
truncates to 0, and a scaling failure. -/
theorem get_scaled_pixmap_safe_witness :
    (get_scaled_pixmap [] 1 ⟨0, 0⟩ 10 10 false false "cover" true =
      ((⟨0, 0⟩, 0, 0), [])) ∧
    ((get_scaled_pixmap [] 1 ⟨10, 10⟩ 10 10 false false "cover" true).1.1.isNull
      = false) ∧
    (get_scaled_pixmap [] 1 ⟨10000, 1⟩ 10 10 false false "contain" true =
      ((⟨10000, 1⟩, 0, 0), [])) ∧
    (get_scaled_pixmap [] 1 ⟨10, 10⟩ 10 10 false false "cover" false =
      ((⟨10, 10⟩, 0, 0), [])) :=
  ⟨(get_scaled_pixmap_safe [] 1 ⟨0, 0⟩ 10 10 false false "cover" true).1 rfl,
   (get_scaled_pixmap_safe [] 1 ⟨10, 10⟩ 10 10 false false "cover" true).2.1 rfl,
   (get_scaled_pixmap_safe [] 1 ⟨10000, 1⟩ 10 10 false false "contain" true).2.2.1
     rfl rfl (Or.inr (by
       simp only [target_size, base_scale_factor]
       rw [if_neg (by decide)]
       norm_num [truncQ])),
   (get_scaled_pixmap_safe [] 1 ⟨10, 10⟩ 10 10 false false "cover" false).2.2.2
     rfl rfl rfl⟩

/-- C2 counterexample: four `_get_scaled_pixmap` calls with distinct
pixmaps, starting from the empty cache, leave the cache holding four
entries — more than the claimed bound of 3.  (`_manage_cache` runs before
the insertion with a strict `> 3` test, so the fourth insertion evicts
nothing.) -/
theorem cache_exceeds_three :
    3 < (run_requests [simple_request 1, simple_request 2,
      simple_request 3, simple_request 4]).length := by
  norm_num [run_requests, scale_step, get_scaled_pixmap, scale_and_store,
    target_size, base_scale_factor, simple_request, cache_lookup, cache_del,
    dict_set, manage_cache, manage_cache_loop, cache_max_size, truncQ,
    Pixmap.isNull]

/-- C2 (amended): the cache is capacity-bounded lazily at
`cache_max_size + 1 = 4`: every sequence of `_get_scaled_pixmap` calls
from the empty cache leaves at most 4 entries, a single call preserves
the ≤ 4 bound, and when 4 entries are present the pre-insertion
`_manage_cache` sweep evicts exactly one entry, the oldest-inserted one. -/
theorem cache_capacity_lazy :
    (∀ (c : PixmapCache) (r : ScaleRequest), c.length ≤ cache_max_size + 1 →
      (scale_step c r).length ≤ cache_max_size + 1) ∧
    (∀ rs : List ScaleRequest,
      (run_requests rs).length ≤ cache_max_size + 1) ∧
    (∀ c : PixmapCache, c.length = cache_max_size + 1 →
      manage_cache c = c.tail) := by
  refine ⟨scale_step_length_le, ?_, ?_⟩
  · intro rs
    unfold run_requests
    have general : ∀ (l : List ScaleRequest) (c : PixmapCache),
        c.length ≤ cache_max_size + 1 →
        (l.foldl scale_step c).length ≤ cache_max_size + 1 := by
      intro l
      induction l with
      | nil => intro c hc; simpa using hc
      | cons r l ih =>
          intro c hc
          exact ih _ (scale_step_length_le c r hc)
    exact general rs [] (by simp)
  · intro c hc
    have h4 : c.length = 4 := by simpa [cache_max_size] using hc
    have htail : c.tail.length = 3 := by simp [h4]
    rw [manage_cache, h4]
    rw [show manage_cache_loop 4 c =
          if cache_max_size < c.length then manage_cache_loop 3 c.tail
          else c from rfl]
    rw [if_pos (by rw [h4]; norm_num [cache_max_size])]
    rw [show manage_cache_loop 3 c.tail =
          if cache_max_size < c.tail.length then manage_cache_loop 2 c.tail.tail
          else c.tail from rfl]
    rw [if_neg (by rw [htail]; norm_num [cache_max_size])]

/-- Witness for `cache_capacity_lazy` at concrete inputs: one call on the
empty cache, a concrete 4-request run, and the sweep of a concrete
4-entry cache. -/
theorem cache_capacity_lazy_witness :
    (scale_step [] (simple_request 1)).length ≤ cache_max_size + 1 ∧
    (run_requests [simple_request 1, simple_request 2]).length ≤
      cache_max_size + 1 ∧
    manage_cache four_entry_cache = four_entry_cache.tail :=
  ⟨cache_capacity_lazy.1 [] (simple_request 1) (by simp),
   cache_capacity_lazy.2.1 [simple_request 1, simple_request 2],
   cache_capacity_lazy.2.2 four_entry_cache (by
     simp [four_entry_cache, cache_max_size])⟩

/-- Witness for `pause_resume_preserves_elapsed`: animation started at
instant 1000, paused at 3000, resumed at 4500. -/
theorem pause_resume_preserves_elapsed_witness :
    (toggle_pause pauseWitnessState 3000).is_paused = true ∧
    (toggle_pause pauseWitnessState 3000).pause_start = some 3000 ∧
    (toggle_pause pauseWitnessState 3000).slide_timer = none ∧
    (toggle_pause pauseWitnessState 3000).animation_timer_on = false ∧
    (toggle_pause (toggle_pause pauseWitnessState 3000) 4500).slide_timer =
      some (max 100 (pauseWitnessState.anim_duration -
        (toggle_pause (toggle_pause pauseWitnessState 3000) 4500).effective_elapsed 4500)) ∧
    (toggle_pause (toggle_pause pauseWitnessState 3000) 4500).effective_elapsed 4500 =
      pauseWitnessState.effective_elapsed 3000 :=
  pause_resume_preserves_elapsed pauseWitnessState 1000 3000 4500 rfl rfl rfl

/-- C4: the end offset is (0,0) for every motion pattern under contain
fit, and for the spiral_in pattern under cover fit, for every image size,
viewport size, scale pair, intensity and all random draws. -/
theorem kb_end_offset_centered (kb : Bool) (vw vh : ℚ) (pixmap : Pixmap)
    (ss es ki : ℚ) (pat : String) (d : OffsetDraws) :
    (calculate_ken_burns_offsets kb "contain" vw vh pixmap ss es ki pat d).2.2
      = (0, 0) ∧
    (calculate_ken_burns_offsets kb "cover" vw vh pixmap ss es ki "spiral_in" d).2.2
      = (0, 0) := by
  constructor <;> cases kb <;>
    simp [calculate_ken_burns_offsets, calculate_ken_burns_offsets_raw,
      kb_end_offsets_raw, truncQ]

/-- Magnitude bounds for a randomly signed start offset component
`sign * m * f * k` with `f` confined to `[lo, hi]`. -/
theorem signed_factor_bounds (s m f k lo hi : ℚ) (hs : s = -1 ∨ s = 1)
    (hm : 0 ≤ m) (hk : 0 ≤ k) (hlo : 0 ≤ lo) (h1 : lo ≤ f) (h2 : f ≤ hi) :
    lo * m * k ≤ |s * m * f * k| ∧ |s * m * f * k| ≤ hi * m * k := by
  have hf0 : 0 ≤ f := le_trans hlo h1
  have hmk : 0 ≤ m * k := mul_nonneg hm hk
  have hmfk : 0 ≤ m * f * k := by positivity
  have habs : |s * m * f * k| = m * f * k := by
    rcases hs with h | h <;> subst h
    · rw [abs_of_nonpos (by nlinarith [hmfk])]
      ring
    · rw [abs_of_nonneg (by nlinarith [hmfk])]
      ring
  rw [habs]
  constructor
  · nlinarith [mul_nonneg (sub_nonneg.2 h1) hmk]
  · nlinarith [mul_nonneg (sub_nonneg.2 h2) hmk]

/-- Magnitude bound for a direction-cosine-scaled start offset component
`c * m * f * k` with `|c| ≤ 1` and `f ≤ 7/10`. -/
theorem cos_factor_bound (c m f k : ℚ) (hc : |c| ≤ 1) (hm : 0 ≤ m)
    (hk : 0 ≤ k) (hf0 : 0 ≤ f) (hf : f ≤ 7/10) :
    |c * m * f * k| ≤ 7/10 * m * k := by
  have h1 : |c * m * f * k| = |c| * (m * f * k) := by
    rw [abs_mul, abs_mul, abs_mul]
    rw [abs_of_nonneg hm, abs_of_nonneg hf0, abs_of_nonneg hk]
    ring
  rw [h1]
  have h2 : |c| * (m * f * k) ≤ 1 * (m * f * k) := by
    apply mul_le_mul_of_nonneg_right hc
    positivity
  nlinarith [abs_nonneg c, mul_nonneg (sub_nonneg.2 hf) (mul_nonneg hm hk)]

/-- The start-offset pair of the raw offset computation, as a function of
the per-axis maxima. -/
theorem kb_offsets_raw_start_x (fit : String) (vw vh : ℚ) (pixmap : Pixmap)
    (ss es i : ℚ) (pat : String) (d : OffsetDraws) :
    (calculate_ken_burns_offsets_raw true fit vw vh pixmap ss es i pat d).1 =
      (kb_start_offsets_raw pat (kb_max_off_x fit vw vh pixmap ss)
        (kb_max_off_y fit vw vh pixmap ss) (i / 10) d).1 := rfl

/-- The y start offset of the raw offset computation. -/
theorem kb_offsets_raw_start_y (fit : String) (vw vh : ℚ) (pixmap : Pixmap)
    (ss es i : ℚ) (pat : String) (d : OffsetDraws) :
    (calculate_ken_burns_offsets_raw true fit vw vh pixmap ss es i pat d).2.1 =
      (kb_start_offsets_raw pat (kb_max_off_x fit vw vh pixmap ss)
        (kb_max_off_y fit vw vh pixmap ss) (i / 10) d).2 := rfl

/-- For the linear, wave and zigzag patterns the start offset is the
signed `0.7 + r*0.2` fraction of each axis maximum, times `intensity/10`. -/
theorem kb_start_offsets_raw_default (pat : String) (smx smy k : ℚ)
    (d : OffsetDraws) (h1 : pat ≠ "spiral_in") (h2 : pat ≠ "arc") :
    kb_start_offsets_raw pat smx smy k d =
      (d.sign_x * smx * (7/10 + d.lin_dist * (2/10)) * k,
       d.sign_y * smy * (7/10 + d.lin_dist * (2/10)) * k) := by
  simp [kb_start_offsets_raw, h1, h2]

/-- For the arc pattern the start offset uses the edge/center factor pair
picked by `arc_x_edge`. -/
theorem kb_start_offsets_raw_arc (smx smy k : ℚ) (d : OffsetDraws) :
    kb_start_offsets_raw "arc" smx smy k d =
      (d.sign_x * smx *
        (if d.arc_x_edge then 7/10 + d.arc_u1 * (2/10)
         else 3/10 + d.arc_u1 * (3/10)) * k,
       d.sign_y * smy *
        (if d.arc_x_edge then 3/10 + d.arc_u2 * (3/10)
         else 7/10 + d.arc_u2 * (2/10)) * k) := by
  simp [kb_start_offsets_raw]

/-- For the spiral pattern the start offset is the direction-cosine-scaled
`0.5 + r*0.2` fraction of each axis maximum, times `intensity/10`. -/
theorem kb_start_offsets_raw_spiral (smx smy k : ℚ) (d : OffsetDraws) :
    kb_start_offsets_raw "spiral_in" smx smy k d =
      (d.spiral_cos * smx * (1/2 + d.spiral_dist * (2/10)) * k,
       d.spiral_sin * smy * (1/2 + d.spiral_dist * (2/10)) * k) := by
  simp [kb_start_offsets_raw]

/-- C5 counterexample: with cover fit, a 200×200 image in a 100×100
viewport, start scale 2 and intensity 5, the linear-pattern start offset
at the lowest draw is 17, strictly below 70% of the start-max-offset
(which is 50): the claim omits the additional `intensity/10` factor. -/
theorem start_offset_below_seventy_percent :
    ((|(calculate_ken_burns_offsets true "cover" 100 100 ⟨200, 200⟩
        2 1 5 "linear" zero_draws).1| : ℚ) <
      7/10 * kb_max_off_x "cover" 100 100 ⟨200, 200⟩ 2) := by
  have h : (calculate_ken_burns_offsets true "cover" 100 100 ⟨200, 200⟩
      2 1 5 "linear" zero_draws).1 = 17 := by
    show truncQ (calculate_ken_burns_offsets_raw true "cover" 100 100
      ⟨200, 200⟩ 2 1 5 "linear" zero_draws).1 = 17
    rw [kb_offsets_raw_start_x,
      kb_start_offsets_raw_default _ _ _ _ _ (by decide) (by decide)]
    norm_num [zero_draws, kb_max_off_x, kb_base_scale, truncQ]
  rw [h]
  norm_num [kb_max_off_x, kb_base_scale]

/-- C5 (amended): before integer truncation, and with the additional
`intensity/10` scaling the source applies, each axis of the start offset
is bounded by its start-max-offset times the pattern's factor range:
70–90% for linear/wave/zigzag (exact magnitude `smx*f*(i/10)`, `f ∈
[0.7,0.9)`); for arc the edge-biased axis 70–90% and the other 30–60%;
for spiral_in each axis is at most 70% (the radial factor is in
`[0.5,0.7)` and the axis component is scaled by the direction cosine). -/
theorem kb_start_offset_bounds (fit : String) (vw vh : ℚ) (pixmap : Pixmap)
    (ss es i : ℚ) (pat : String) (d : OffsetDraws)
    (hi : 0 ≤ i)
    (hsx : d.sign_x = -1 ∨ d.sign_x = 1) (hsy : d.sign_y = -1 ∨ d.sign_y = 1)
    (hld0 : 0 ≤ d.lin_dist) (hld1 : d.lin_dist < 1)
    (ha10 : 0 ≤ d.arc_u1) (ha11 : d.arc_u1 < 1)
    (ha20 : 0 ≤ d.arc_u2) (ha21 : d.arc_u2 < 1)
    (hsd0 : 0 ≤ d.spiral_dist) (hsd1 : d.spiral_dist < 1)
    (hcos : |d.spiral_cos| ≤ 1) (hsin : |d.spiral_sin| ≤ 1) :
    ((pat = "linear" ∨ pat = "wave" ∨ pat = "zigzag") →
      (7/10 * kb_max_off_x fit vw vh pixmap ss * (i/10) ≤
        |(calculate_ken_burns_offsets_raw true fit vw vh pixmap ss es i pat d).1| ∧
       |(calculate_ken_burns_offsets_raw true fit vw vh pixmap ss es i pat d).1| ≤
        9/10 * kb_max_off_x fit vw vh pixmap ss * (i/10)) ∧
      (7/10 * kb_max_off_y fit vw vh pixmap ss * (i/10) ≤
        |(calculate_ken_burns_offsets_raw true fit vw vh pixmap ss es i pat d).2.1| ∧
       |(calculate_ken_burns_offsets_raw true fit vw vh pixmap ss es i pat d).2.1| ≤
        9/10 * kb_max_off_y fit vw vh pixmap ss * (i/10))) ∧
    (d.arc_x_edge = true →
      (7/10 * kb_max_off_x fit vw vh pixmap ss * (i/10) ≤
        |(calculate_ken_burns_offsets_raw true fit vw vh pixmap ss es i "arc" d).1| ∧
       |(calculate_ken_burns_offsets_raw true fit vw vh pixmap ss es i "arc" d).1| ≤
        9/10 * kb_max_off_x fit vw vh pixmap ss * (i/10)) ∧
      (3/10 * kb_max_off_y fit vw vh pixmap ss * (i/10) ≤
        |(calculate_ken_burns_offsets_raw true fit vw vh pixmap ss es i "arc" d).2.1| ∧
       |(calculate_ken_burns_offsets_raw true fit vw vh pixmap ss es i "arc" d).2.1| ≤
        6/10 * kb_max_off_y fit vw vh pixmap ss * (i/10))) ∧
    (d.arc_x_edge = false →
      (3/10 * kb_max_off_x fit vw vh pixmap ss * (i/10) ≤
        |(calculate_ken_burns_offsets_raw true fit vw vh pixmap ss es i "arc" d).1| ∧
       |(calculate_ken_burns_offsets_raw true fit vw vh pixmap ss es i "arc" d).1| ≤
        6/10 * kb_max_off_x fit vw vh pixmap ss * (i/10)) ∧
      (7/10 * kb_max_off_y fit vw vh pixmap ss * (i/10) ≤
        |(calculate_ken_burns_offsets_raw true fit vw vh pixmap ss es i "arc" d).2.1| ∧
       |(calculate_ken_burns_offsets_raw true fit vw vh pixmap ss es i "arc" d).2.1| ≤
        9/10 * kb_max_off_y fit vw vh pixmap ss * (i/10))) ∧
    (|(calculate_ken_burns_offsets_raw true fit vw vh pixmap ss es i "spiral_in" d).1| ≤
      7/10 * kb_max_off_x fit vw vh pixmap ss * (i/10) ∧
     |(calculate_ken_burns_offsets_raw true fit vw vh pixmap ss es i "spiral_in" d).2.1| ≤
      7/10 * kb_max_off_y fit vw vh pixmap ss * (i/10)) := by
  have hmx : 0 ≤ kb_max_off_x fit vw vh pixmap ss := le_max_left 0 _
  have hmy : 0 ≤ kb_max_off_y fit vw vh pixmap ss := le_max_left 0 _
  have hk : 0 ≤ i / 10 := by positivity
  refine ⟨?_, ?_, ?_, ?_⟩
  · intro hpat
    have hne1 : pat ≠ "spiral_in" := by
      rcases hpat with h | h | h <;> subst h <;> decide
    have hne2 : pat ≠ "arc" := by
      rcases hpat with h | h | h <;> subst h <;> decide
    rw [kb_offsets_raw_start_x, kb_offsets_raw_start_y,
      kb_start_offsets_raw_default _ _ _ _ _ hne1 hne2]
    exact ⟨signed_factor_bounds _ _ _ _ _ _ hsx hmx hk (by norm_num)
        (by nlinarith) (by nlinarith),
      signed_factor_bounds _ _ _ _ _ _ hsy hmy hk (by norm_num)
        (by nlinarith) (by nlinarith)⟩
  · intro hb
    rw [kb_offsets_raw_start_x, kb_offsets_raw_start_y,
      kb_start_offsets_raw_arc]
    simp only [hb, if_true]
    exact ⟨signed_factor_bounds _ _ _ _ _ _ hsx hmx hk (by norm_num)
        (by nlinarith) (by nlinarith),
      signed_factor_bounds _ _ _ _ _ _ hsy hmy hk (by norm_num)
        (by nlinarith) (by nlinarith)⟩
  · intro hb
    rw [kb_offsets_raw_start_x, kb_offsets_raw_start_y,
      kb_start_offsets_raw_arc]
    simp only [hb, Bool.false_eq_true, if_false]
    exact ⟨signed_factor_bounds _ _ _ _ _ _ hsx hmx hk (by norm_num)
        (by nlinarith) (by nlinarith),
      signed_factor_bounds _ _ _ _ _ _ hsy hmy hk (by norm_num)
        (by nlinarith) (by nlinarith)⟩
  · rw [kb_offsets_raw_start_x, kb_offsets_raw_start_y,
      kb_start_offsets_raw_spiral]
    exact ⟨cos_factor_bound _ _ _ _ hcos hmx hk (by nlinarith) (by nlinarith),
      cos_factor_bound _ _ _ _ hsin hmy hk (by nlinarith) (by nlinarith)⟩

/-- Witness for `kb_start_offset_bounds`: linear pattern, cover fit,
200×200 image in a 100×100 viewport, start scale 2, intensity 5, zero
draws. -/
theorem kb_start_offset_bounds_witness :
    7/10 * kb_max_off_x "cover" 100 100 ⟨200, 200⟩ 2 * (5/10) ≤
      |(calculate_ken_burns_offsets_raw true "cover" 100 100 ⟨200, 200⟩
          2 1 5 "linear" zero_draws).1| ∧
    |(calculate_ken_burns_offsets_raw true "cover" 100 100 ⟨200, 200⟩
        2 1 5 "linear" zero_draws).1| ≤
      9/10 * kb_max_off_x "cover" 100 100 ⟨200, 200⟩ 2 * (5/10) :=
  ((kb_start_offset_bounds "cover" 100 100 ⟨200, 200⟩ 2 1 5 "linear"
      zero_draws (by norm_num)
      (Or.inr (by norm_num [zero_draws])) (Or.inr (by norm_num [zero_draws]))
      (by norm_num [zero_draws]) (by norm_num [zero_draws])
      (by norm_num [zero_draws]) (by norm_num [zero_draws])
      (by norm_num [zero_draws]) (by norm_num [zero_draws])
      (by norm_num [zero_draws]) (by norm_num [zero_draws])
      (by norm_num [zero_draws]) (by norm_num [zero_draws])).1
    (Or.inl rfl)).1

/-- C9: the transition-effect selector returns the sentinel "none" when no
effects are enabled (instead of raising); otherwise it returns a member of
the enabled set — in random order at any in-range draw keeping the index
unchanged, in sequential order advancing the index cyclically modulo the
set size. -/
theorem select_next_effect_total (enabled : List String) (order : String)
    (r idx : ℕ) :
    (enabled = [] → select_next_effect enabled order r idx = some ("none", idx)) ∧
    (enabled ≠ [] → order = "random" → r < enabled.length →
      ∃ e, select_next_effect enabled order r idx = some (e, idx) ∧ e ∈ enabled) ∧
    (enabled ≠ [] → order ≠ "random" → idx < enabled.length →
      ∃ e, select_next_effect enabled order r idx =
        some (e, (idx + 1) % enabled.length) ∧ e ∈ enabled) := by
  refine ⟨?_, ?_, ?_⟩
  · intro h
    subst h
    rfl
  · intro hne hord hr
    subst hord
    refine ⟨enabled.get ⟨r, hr⟩, ?_, List.get_mem _ _ _⟩
    simp [select_next_effect, hne, List.getElem?_eq_getElem hr]
  · intro hne hord hidx
    refine ⟨enabled.get ⟨idx, hidx⟩, ?_, List.get_mem _ _ _⟩
    have hbe : (order == "random") = false := by
      simpa using hord
    simp [select_next_effect, hne, hbe, List.getElem?_eq_getElem hidx]

/-- Witness for `select_next_effect_total`: the empty set, a singleton in
random order, and a pair in sequential order at index 1. -/
theorem select_next_effect_total_witness :
    (select_next_effect [] "random" 0 0 = some ("none", 0)) ∧
    (∃ e, select_next_effect ["crossfade"] "random" 0 0 = some (e, 0) ∧
      e ∈ ["crossfade"]) ∧
    (∃ e, select_next_effect ["crossfade", "zoom"] "sequential" 0 1 =
      some (e, (1 + 1) % ["crossfade", "zoom"].length) ∧
      e ∈ ["crossfade", "zoom"]) :=
  ⟨(select_next_effect_total [] "random" 0 0).1 rfl,
   (select_next_effect_total ["crossfade"] "random" 0 0).2.1
     (by simp) rfl (by norm_num),
   (select_next_effect_total ["crossfade", "zoom"] "sequential" 0 1).2.2
     (by simp) (by simp) (by norm_num)⟩

/-- C7: when all three in-place decode retries fail on the advance path,
the target path's cumulative failure counter is incremented and the
advance does not proceed; once the counter reaches 3 the path is removed
from the playlist (length decreases by one) and, if images remain, the
advance is retried after 100 ms; below the threshold nothing is removed,
the index stays (no slide of display time is consumed) and the advance is
retried after 100 ms.  The decode loop is insensitive to outcomes beyond
the first three attempts. -/
theorem decode_failure_never_halts (s : AdvanceState) (force : Bool)
    (interval_ms : ℤ) (decode_ok : ℕ → Bool) (ni : ℕ) (path : String)
    (hguard : (s.animating && !force) = false)
    (hp : s.is_paused = false)
    (hne : s.image_files ≠ [])
    (hidx : s.index < s.image_files.length)
    (hfail : ∀ k, k < 3 → decode_ok k = false)
    (hni : ni = (s.index + 1) % s.image_files.length)
    (hpath : path = s.image_files.getD ni "") :
    ((on_slide_timeout s force interval_ms decode_ok).load_error_count path =
      s.load_error_count path + 1) ∧
    ((on_slide_timeout s force interval_ms decode_ok).proceeded = false) ∧
    (3 ≤ s.load_error_count path + 1 →
      (on_slide_timeout s force interval_ms decode_ok).image_files =
        s.image_files.erase path ∧
      (on_slide_timeout s force interval_ms decode_ok).image_files.length =
        s.image_files.length - 1 ∧
      ((on_slide_timeout s force interval_ms decode_ok).image_files ≠ [] →
        (on_slide_timeout s force interval_ms decode_ok).slide_timer = some 100)) ∧
    (s.load_error_count path + 1 < 3 →
      (on_slide_timeout s force interval_ms decode_ok).image_files =
        s.image_files ∧
      (on_slide_timeout s force interval_ms decode_ok).index = s.index ∧
      (on_slide_timeout s force interval_ms decode_ok).slide_timer = some 100) ∧
    (∀ dk₁ dk₂ : ℕ → Bool, (∀ k, k < 3 → dk₁ k = dk₂ k) →
      decode_succeeds dk₁ = decode_succeeds dk₂) := by
  have hdec : decode_succeeds decode_ok = false := by
    simp [decode_succeeds, decode_retry, hfail 0 (by norm_num),
      hfail 1 (by norm_num), hfail 2 (by norm_num)]
  have hmem : path ∈ s.image_files := by
    have hlt : ni < s.image_files.length := by
      rw [hni]
      exact Nat.mod_lt _ (List.length_pos.mpr hne)
    rw [hpath, List.getD_eq_getElem s.image_files "" hlt]
    exact List.getElem_mem hlt
  have hidx0 : (if s.image_files.length ≤ s.index then 0 else s.index) = s.index :=
    if_neg (by omega)
  have hEmpty : s.image_files.isEmpty = false := by
    simpa [List.isEmpty_iff] using hne
  have hins : ∀ dk₁ dk₂ : ℕ → Bool, (∀ k, k < 3 → dk₁ k = dk₂ k) →
      decode_succeeds dk₁ = decode_succeeds dk₂ := by
    intro dk₁ dk₂ h
    simp [decode_succeeds, decode_retry, h 0 (by norm_num),
      h 1 (by norm_num), h 2 (by norm_num)]
  have hr : on_slide_timeout s force interval_ms decode_ok =
      (if 3 ≤ s.load_error_count path + 1 then
        (if (s.image_files.erase path).isEmpty then
          ⟨s.image_files.erase path, s.index,
            fun p => if p = path then s.load_error_count path + 1
              else s.load_error_count p, none, false⟩
        else
          ⟨s.image_files.erase path, s.index % (s.image_files.erase path).length,
            fun p => if p = path then s.load_error_count path + 1
              else s.load_error_count p, some 100, false⟩)
      else
        ⟨s.image_files, s.index,
          fun p => if p = path then s.load_error_count path + 1
            else s.load_error_count p, some 100, false⟩) := by
    rw [on_slide_timeout]
    rw [if_neg (by simp [hguard]), if_neg (by simp [hp]),
      if_neg (by simp [hEmpty])]
    simp only [hidx0, ← hni, ← hpath, hdec]
    rw [if_neg (by simp)]
  rw [hr]
  by_cases h3 : 3 ≤ s.load_error_count path + 1
  · rw [if_pos h3]
    by_cases hemp : (s.image_files.erase path).isEmpty
    · rw [if_pos hemp]
      refine ⟨by simp, rfl, ?_, ?_, hins⟩
      · intro _
        refine ⟨rfl, List.length_erase_of_mem hmem, ?_⟩
        intro hcon
        exact absurd (List.isEmpty_iff.mp hemp) hcon
      · intro hlt
        omega
    · rw [if_neg hemp]
      refine ⟨by simp, rfl, ?_, ?_, hins⟩
      · intro _
        exact ⟨rfl, List.length_erase_of_mem hmem, fun _ => rfl⟩
      · intro hlt
        omega
  · rw [if_neg h3]
    exact ⟨by simp, rfl, fun hc => absurd hc h3,
      fun _ => ⟨rfl, rfl, rfl⟩, hins⟩

/-- Witness for `decode_failure_never_halts`: three images "a","b","c",
index 0, path "b" already at 2 failures, every decode attempt failing —
the third cumulative failure removes "b". -/
theorem decode_failure_never_halts_witness :
    ((on_slide_timeout advWitnessState false 5000 (fun _ => false)).load_error_count "b" =
      advWitnessState.load_error_count "b" + 1) ∧
    ((on_slide_timeout advWitnessState false 5000 (fun _ => false)).proceeded = false) ∧
    (3 ≤ advWitnessState.load_error_count "b" + 1 →
      (on_slide_timeout advWitnessState false 5000 (fun _ => false)).image_files =
        advWitnessState.image_files.erase "b" ∧
      (on_slide_timeout advWitnessState false 5000 (fun _ => false)).image_files.length =
        advWitnessState.image_files.length - 1 ∧
      ((on_slide_timeout advWitnessState false 5000 (fun _ => false)).image_files ≠ [] →
        (on_slide_timeout advWitnessState false 5000 (fun _ => false)).slide_timer =
          some 100)) ∧
    (advWitnessState.load_error_count "b" + 1 < 3 →
      (on_slide_timeout advWitnessState false 5000 (fun _ => false)).image_files =
        advWitnessState.image_files ∧
      (on_slide_timeout advWitnessState false 5000 (fun _ => false)).index =
        advWitnessState.index ∧
      (on_slide_timeout advWitnessState false 5000 (fun _ => false)).slide_timer =
        some 100) ∧
    (∀ dk₁ dk₂ : ℕ → Bool, (∀ k, k < 3 → dk₁ k = dk₂ k) →
      decode_succeeds dk₁ = decode_succeeds dk₂) :=
  decode_failure_never_halts advWitnessState false 5000 (fun _ => false) 1 "b"
    rfl rfl (by simp [advWitnessState]) (by norm_num [advWitnessState])
    (fun _ _ => rfl) rfl rfl

/-- C8 counterexample: at eased progress 0 with intensity 10, start angle
0 and zero offsets, the during-transition spiral position is (100, 0)
while the claimed formula with amplitude scale `120*intensity/10` gives
(120, 0): the during-transition path uses scale 100, not 120. -/
theorem spiral_transition_amplitude_differs :
    apply_ken_burns_during_transition_spiral 10 0 0 0 0 0 0 0 ≠
      claimed_spiral_position (120 * 10 / 10) 0 0 0 0 0 0 0 := by
  intro h
  have h1 := congrArg Prod.fst h
  simp only [apply_ken_burns_during_transition_spiral,
    claimed_spiral_position] at h1
  norm_num [Real.cos_zero] at h1

/-- C8 (amended): for every eased progress, both spiral position functions
return the linear interpolation of start and end offsets plus the rotating
offset `amplitude(t)*[cos(angle), sin(angle)]` with
`angle = start_angle + t*rotations*2*pi` and the radius ramping 1.0→1.3
over `t ∈ [0,0.2]` then decaying 1.3→0 over `t ∈ [0.2,1.0]` — with
amplitude scale `120*intensity/10` in the static Ken-Burns path but
`100*intensity/10` in the during-transition path. -/
theorem spiral_position_formula (i : ℚ) (rot ang : ℝ) (sx sy ex ey : ℤ)
    (t : ℚ) :
    apply_ken_burns_normal_spiral i rot ang sx sy ex ey t =
      claimed_spiral_position (120 * i / 10) rot ang sx sy ex ey t ∧
    apply_ken_burns_during_transition_spiral i rot ang sx sy ex ey t =
      claimed_spiral_position (100 * i / 10) rot ang sx sy ex ey t := by
  have hradius : (if t < 2/10 then 1 + t / (2/10) * (3/10)
      else 13/10 * (1 - (t - 2/10) / (8/10)) : ℚ) =
      (if t < 2/10 then 1 + 3/2 * t else 13/8 * (1 - t)) := by
    split <;> ring
  constructor <;>
    refine Prod.ext ?_ ?_ <;>
      simp only [apply_ken_burns_normal_spiral,
        apply_ken_burns_during_transition_spiral, claimed_spiral_position,
        hradius]

end Slideshow
